import Mathlib

/-!
Verification of the core of the `tg_bot` currency-exchange broker
(balance ledger, transaction lifecycle, fuzzy receiver-account matcher,
submission/confirmation workflow), shallowly embedded from the Python
sources under `app/`.

Modelling conventions:
* SQL rows become Lean structures; the database becomes a `DB` structure
  holding the row lists in stored (rowid) order.
* Monetary amounts (REAL columns and Python floats) are modelled as `ℚ`;
  every amount exercised by the specification is exactly representable.
* Timestamps (`datetime.now()`, CURRENT_TIMESTAMP) are abstract `Nat`
  ticks passed explicitly as a `now` argument.
* Strings are Lean `String`; the names exercised here are ASCII, where
  Python `str.lower`/`str.isalnum`/`str.isspace` agree with
  `Char.toLower`/`Char.isAlphanum`/`Char.isWhitespace`.
* A SQL `UPDATE ... WHERE` becomes a `List.map` that rewrites exactly the
  rows satisfying the WHERE clause; `fetchone` of a `SELECT ... WHERE`
  becomes `List.find?` in stored order.
-/

namespace ExchangeBot

/-- Row of the `admin_bank_accounts` table
(`database_service.py`, `init_database`): currency, bank name, account
number, account holder name, balance, active flag, optional display name,
last-updated tick.  `accId` is the INTEGER PRIMARY KEY. -/
structure AdminBankAccount where
  accId : Nat
  currency : String
  bank_name : String
  account_number : String
  account_name : String
  balance : ℚ
  is_active : Bool
  display_name : Option String
  updated_at : Nat
deriving Repr, DecidableEq

/-- Row of the `transactions` table (`database_service.py`,
`init_database`), fields in column order of the CREATE TABLE. -/
structure Transaction where
  id : Nat
  user_id : Nat
  username : Option String
  receipt_path : Option String
  admin_receipt_path : Option String
  from_bank : Option String
  to_bank : Option String
  thb_amount : ℚ
  mmk_amount : ℚ
  rate : ℚ
  user_bank_name : Option String
  user_account_number : Option String
  user_account_name : Option String
  admin_bank : Option String
  admin_thb_bank : Option String
  status : String
  transaction_ref : Option String
  created_at : Nat
  confirmed_at : Option Nat
deriving Repr, DecidableEq

/-- The persistent store: the two row lists in stored order, the
AUTOINCREMENT counter for `transactions.id`, and the single row of the
`exchange_rate` table. -/
structure DB where
  transactions : List Transaction
  accounts : List AdminBankAccount
  nextId : Nat
  rate : ℚ
deriving Repr, DecidableEq

/-- The WHERE clause `currency = ? AND bank_name = ?` used by
`update_balance`, `set_balance` and `get_balance` (no `is_active`
filter in the source SQL). -/
def accountMatches (c bk : String) (a : AdminBankAccount) : Bool :=
  decide (a.currency = c ∧ a.bank_name = bk)

/-- Effect of `update_balance`'s UPDATE on one row:
`SET balance = balance + ?, updated_at = ? WHERE currency = ? AND bank_name = ?`. -/
def adjustRow (c bk : String) (δ : ℚ) (now : Nat) (a : AdminBankAccount) :
    AdminBankAccount :=
  if a.currency = c ∧ a.bank_name = bk then
    { a with balance := a.balance + δ, updated_at := now }
  else a

/-- `DatabaseService.update_balance(currency, bank, amount_change)`:
relative balance adjustment of every row matching (currency, bank). -/
def update_balance (db : DB) (c bk : String) (δ : ℚ) (now : Nat) : DB :=
  { db with accounts := db.accounts.map (adjustRow c bk δ now) }

/-- Effect of `set_balance`'s UPDATE on one row. -/
def setRow (c bk : String) (v : ℚ) (now : Nat) (a : AdminBankAccount) :
    AdminBankAccount :=
  if a.currency = c ∧ a.bank_name = bk then
    { a with balance := v, updated_at := now }
  else a

/-- `DatabaseService.set_balance(currency, bank, new_balance)`: absolute
overwrite of every row matching (currency, bank); warns (no-op) when no
row matches. -/
def set_balance (db : DB) (c bk : String) (v : ℚ) (now : Nat) : DB :=
  { db with accounts := db.accounts.map (setRow c bk v now) }

/-- `DatabaseService.get_balance(currency, bank)`: `SELECT balance ...
WHERE currency = ? AND bank_name = ?` then `fetchone`, defaulting to 0.0
when no row matches. -/
def get_balance (db : DB) (c bk : String) : ℚ :=
  match db.accounts.find? (accountMatches c bk) with
  | some a => a.balance
  | none => 0

/-- `DatabaseService.get_balances()`: the active rows.  (The source adds
`ORDER BY currency, bank_name`; callers only ever scan for an exact
(currency, bank) pair, for which the relative order of the matching rows
is the stored order in SQLite, so the sort is omitted.) -/
def get_balances (db : DB) : List AdminBankAccount :=
  db.accounts.filter (·.is_active)

/-- The lookup `next((b[2] for b in self.db.get_balances() if b[0] == c
and b[1] == bk), 0)` used by `admin_bank_selection_callback`. -/
def lookupActiveBalance (db : DB) (c bk : String) : ℚ :=
  match (get_balances db).find? (accountMatches c bk) with
  | some a => a.balance
  | none => 0

/-- `find?` commutes with a map that does not change the predicate. -/
theorem find?_map_pred {α : Type} (f : α → α) (p : α → Bool)
    (h : ∀ x, p (f x) = p x) :
    ∀ l : List α, (l.map f).find? p = (l.find? p).map f := by
  intro l
  induction l with
  | nil => rfl
  | cons a l ih =>
    simp only [List.map_cons, List.find?_cons, h a]
    cases hpa : p a <;> simp [ih]

/-- `filter` commutes with a map that does not change the predicate. -/
theorem filter_map_pred {α : Type} (f : α → α) (p : α → Bool)
    (h : ∀ x, p (f x) = p x) :
    ∀ l : List α, (l.map f).filter p = (l.filter p).map f := by
  intro l
  induction l with
  | nil => rfl
  | cons a l ih =>
    simp only [List.map_cons, List.filter_cons, h a]
    cases hpa : p a <;> simp [ih]

theorem adjustRow_matches (c bk : String) (δ : ℚ) (now : Nat)
    (a : AdminBankAccount) :
    accountMatches c bk (adjustRow c bk δ now a) = accountMatches c bk a := by
  unfold adjustRow accountMatches
  split <;> simp_all

theorem adjustRow_active (c bk : String) (δ : ℚ) (now : Nat)
    (a : AdminBankAccount) :
    (adjustRow c bk δ now a).is_active = a.is_active := by
  unfold adjustRow
  split <;> rfl

theorem adjustRow_of_matches (c bk : String) (δ : ℚ) (now : Nat)
    (a : AdminBankAccount) (h : accountMatches c bk a = true) :
    adjustRow c bk δ now a = { a with balance := a.balance + δ, updated_at := now } := by
  unfold accountMatches at h
  unfold adjustRow
  simp only [decide_eq_true_eq] at h
  simp [h]

/-- After `update_balance (c, bk, δ)`, the row `get_balance (c, bk)`
reads has gained `δ`. -/
theorem get_balance_update_balance (db : DB) (c bk : String) (δ : ℚ)
    (now : Nat) (a : AdminBankAccount)
    (ha : db.accounts.find? (accountMatches c bk) = some a) :
    get_balance (update_balance db c bk δ now) c bk = a.balance + δ := by
  unfold get_balance update_balance
  simp only
  rw [find?_map_pred (adjustRow c bk δ now) (accountMatches c bk)
    (adjustRow_matches c bk δ now), ha]
  have hm : accountMatches c bk a = true := List.find?_some ha
  simp [adjustRow_of_matches c bk δ now a hm]

theorem get_balance_eq_of_find? (db : DB) (c bk : String)
    (a : AdminBankAccount)
    (ha : db.accounts.find? (accountMatches c bk) = some a) :
    get_balance db c bk = a.balance := by
  unfold get_balance
  rw [ha]

/-- C7: for every registered (currency, bank) ledger account with balance
`b`, `adjustBalance (update_balance)` followed by `getBalance
(get_balance)` yields `b + δ`. -/
theorem C7_adjust_then_get (db : DB) (c bk : String) (δ : ℚ) (now : Nat)
    (b : ℚ) (a : AdminBankAccount)
    (ha : db.accounts.find? (accountMatches c bk) = some a)
    (hb : get_balance db c bk = b) :
    get_balance (update_balance db c bk δ now) c bk = b + δ := by
  have := get_balance_eq_of_find? db c bk a ha
  rw [get_balance_update_balance db c bk δ now a ha, ← hb, this]

/-- Concrete store used by several witnesses: one active THB account and
one active MMK account. -/
def sampleTHBAccount : AdminBankAccount :=
  { accId := 1, currency := "THB", bank_name := "SiamCommercialBank",
    account_number := "1234567890", account_name := "Min Myat Nwe",
    balance := 150000, is_active := true, display_name := none,
    updated_at := 0 }

def sampleMMKAccount : AdminBankAccount :=
  { accId := 2, currency := "MMK", bank_name := "KBZ",
    account_number := "0987654321", account_name := "Thu Kha Zaw",
    balance := 200000, is_active := true, display_name := none,
    updated_at := 0 }

def sampleDB : DB :=
  { transactions := [], accounts := [sampleTHBAccount, sampleMMKAccount],
    nextId := 1, rate := 243 / 2 }

/-- Witness for C7 at a concrete store: adjusting THB/SiamCommercialBank
by 1000 moves the read balance from 150000 to 151000. -/
theorem C7_adjust_then_get_witness :
    get_balance (update_balance sampleDB "THB" "SiamCommercialBank" 1000 5)
      "THB" "SiamCommercialBank" = 150000 + 1000 :=
  C7_adjust_then_get sampleDB "THB" "SiamCommercialBank" 1000 5 150000
    sampleTHBAccount (by decide) (by decide)

/-- `DatabaseService.create_transaction(...)`: INSERT with status forced
to 'pending', `confirmed_at` NULL, id from AUTOINCREMENT.  Returns the
new id (the source returns `cursor.lastrowid`). -/
def create_transaction (db : DB) (user_id : Nat) (username : Option String)
    (thb mmk rate : ℚ) (user_bank_name user_account_number user_account_name : String)
    (from_bank : Option String) (receipt_path : Option String)
    (admin_thb_bank : Option String) (now : Nat) : DB × Nat :=
  let t : Transaction :=
    { id := db.nextId, user_id := user_id, username := username,
      receipt_path := receipt_path, admin_receipt_path := none,
      from_bank := from_bank, to_bank := none,
      thb_amount := thb, mmk_amount := mmk, rate := rate,
      user_bank_name := some user_bank_name,
      user_account_number := some user_account_number,
      user_account_name := some user_account_name,
      admin_bank := none, admin_thb_bank := admin_thb_bank,
      status := "pending", transaction_ref := none,
      created_at := now, confirmed_at := none }
  ({ db with transactions := db.transactions ++ [t], nextId := db.nextId + 1 },
   db.nextId)

/-- `DatabaseService.get_transaction(transaction_id)`: SELECT by id,
`fetchone`. -/
def get_transaction (db : DB) (txid : Nat) : Option Transaction :=
  db.transactions.find? (fun t => decide (t.id = txid))

/-- `DatabaseService.update_transaction_status(transaction_id, status,
admin_bank=None)`: unconditionally `SET status = ?, [admin_bank = ?,]
confirmed_at = now WHERE id = ?`.  The source checks `if admin_bank:`
(Python truthiness), so `None` and the empty string both take the
branch without `admin_bank`.  No guard on the current status exists in
the source. -/
def update_transaction_status (db : DB) (txid : Nat) (status : String)
    (admin_bank : Option String) (now : Nat) : DB :=
  { db with transactions := db.transactions.map (fun t =>
      if t.id = txid then
        match admin_bank with
        | some b =>
          if b = "" then { t with status := status, confirmed_at := some now }
          else
            { t with
              status := status
              admin_bank := some b
              confirmed_at := some now }
        | none => { t with status := status, confirmed_at := some now }
      else t) }

/-- `DatabaseService.update_transaction_with_admin_bank(transaction_id,
status, admin_mmk_bank, admin_thb_bank)`: unconditionally `SET status,
admin_bank, admin_thb_bank, confirmed_at = now WHERE id = ?`. -/
def update_transaction_with_admin_bank (db : DB) (txid : Nat)
    (status : String) (admin_mmk_bank admin_thb_bank : Option String)
    (now : Nat) : DB :=
  { db with transactions := db.transactions.map (fun t =>
      if t.id = txid then
        { t with
          status := status
          admin_bank := admin_mmk_bank
          admin_thb_bank := admin_thb_bank
          confirmed_at := some now }
      else t) }

/-- `AdminHandlers.admin_cancel_callback`: parses the transaction id from
the callback payload and calls `update_transaction_status(txid,
'cancelled')` unconditionally (messaging side effects omitted). -/
def admin_cancel_callback (db : DB) (txid : Nat) (now : Nat) : DB :=
  update_transaction_status db txid "cancelled" none now

/-- Outcome of `admin_bank_selection_callback`, as observed by the
operator. -/
inductive ConfirmResult where
  | notFound
  | insufficient (current required shortage : ℚ)
  | confirmed
deriving Repr, DecidableEq

/-- `AdminHandlers.admin_bank_selection_callback`: the confirmation
protocol.  Fetches the transaction (aborting when absent), reads the
active MMK balance of the selected bank (default 0), aborts with an
insufficiency report when the projected balance is negative, otherwise
debits the MMK account and overwrites the transaction with status
'confirmed' and both bank tags.  The source never consults the
transaction's current status here; the THB before/after figures it
computes are display-only and omitted. -/
def admin_bank_selection_callback (db : DB) (bank : String) (txid : Nat)
    (now : Nat) : DB × ConfirmResult :=
  match get_transaction db txid with
  | none => (db, ConfirmResult.notFound)
  | some t =>
    let mmk_before := lookupActiveBalance db "MMK" bank
    let mmk_after := mmk_before - t.mmk_amount
    if mmk_after < 0 then
      (db, ConfirmResult.insufficient mmk_before t.mmk_amount |mmk_after|)
    else
      let db1 := update_balance db "MMK" bank (-t.mmk_amount) now
      let db2 := update_transaction_with_admin_bank db1 txid "confirmed"
        (some bank) t.admin_thb_bank now
      (db2, ConfirmResult.confirmed)

/-- `AdminHandlers.adjust_balance_command`, relative branch (the amount
argument carries a leading `+` or `-`): `update_balance` with the parsed
delta.  The float parsing is abstracted into the `δ` argument. -/
def adjust_balance_command_relative (db : DB) (currency bank : String)
    (δ : ℚ) (now : Nat) : DB :=
  update_balance db currency bank δ now

/- Sample rows used by witnesses and counterexamples. -/

def pendingTx : Transaction :=
  { id := 1, user_id := 42, username := some "alice",
    receipt_path := some "receipts/r.jpg", admin_receipt_path := none,
    from_bank := some "KBank", to_bank := none,
    thb_amount := 1000, mmk_amount := 121500, rate := 243 / 2,
    user_bank_name := some "AYA", user_account_number := some "00987654321",
    user_account_name := some "AUNG AUNG", admin_bank := none,
    admin_thb_bank := some "SiamCommercialBank", status := "pending",
    transaction_ref := none, created_at := 1, confirmed_at := none }

def confirmedTx : Transaction :=
  { pendingTx with
    status := "confirmed"
    admin_bank := some "KBZ"
    confirmed_at := some 3 }

def dbPending : DB :=
  { transactions := [pendingTx],
    accounts := [sampleTHBAccount, sampleMMKAccount],
    nextId := 2, rate := 243 / 2 }

def dbConfirmed : DB :=
  { dbPending with transactions := [confirmedTx] }

def lowMMKAccount : AdminBankAccount :=
  { sampleMMKAccount with balance := 50000 }

def dbLow : DB :=
  { dbPending with accounts := [sampleTHBAccount, lowMMKAccount] }

def smallMMKAccount : AdminBankAccount :=
  { sampleMMKAccount with balance := 5000 }

def dbSmall : DB :=
  { dbPending with accounts := [sampleTHBAccount, smallMMKAccount] }

unseal Rat.add Rat.sub Rat.mul Rat.inv in
/-- C1: a confirmation event delivered for a transaction that is no
longer pending is NOT a no-op in the source: `admin_bank_selection_callback`
never re-checks the status, so a duplicate delivery debits the MMK
ledger account again and overwrites the transaction a second time.
Evaluated here at a store whose only transaction is already 'confirmed'
(MMK/KBZ balance 200000, payout 121500): the duplicate event reports
success and the balance drops to 78500. -/
theorem C1_duplicate_confirmation_redebits :
    (get_transaction dbConfirmed 1).map (fun t => t.status) = some "confirmed" ∧
    lookupActiveBalance dbConfirmed "MMK" "KBZ" = 200000 ∧
    (admin_bank_selection_callback dbConfirmed "KBZ" 1 9).2 =
      ConfirmResult.confirmed ∧
    lookupActiveBalance (admin_bank_selection_callback dbConfirmed "KBZ" 1 9).1
      "MMK" "KBZ" = 78500 := by
  decide

unseal Rat.add Rat.sub Rat.mul Rat.inv in
/-- C2: a status update on a transaction already in a terminal state is
NOT rejected by the source: `update_transaction_status` (here through
`admin_cancel_callback`) overwrites the stored status unconditionally,
so the terminal transition confirmed → cancelled is silently accepted. -/
theorem C2_terminal_transition_accepted :
    (get_transaction dbConfirmed 1).map (fun t => t.status) = some "confirmed" ∧
    (get_transaction (admin_cancel_callback dbConfirmed 1 9) 1).map
      (fun t => t.status) = some "cancelled" := by
  decide

/-- C3: when the payout amount exceeds the selected MMK account's current
balance, `admin_bank_selection_callback` aborts before any mutation: the
store is returned unchanged (no ledger debit, transaction untouched) and
the caller receives the insufficiency signal carrying the current
balance, the required amount, and the shortage. -/
theorem C3_insufficient_funds_aborts (db : DB) (bank : String)
    (txid now : Nat) (t : Transaction)
    (ht : get_transaction db txid = some t)
    (hlt : lookupActiveBalance db "MMK" bank < t.mmk_amount) :
    admin_bank_selection_callback db bank txid now =
      (db, ConfirmResult.insufficient (lookupActiveBalance db "MMK" bank)
        t.mmk_amount (t.mmk_amount - lookupActiveBalance db "MMK" bank)) := by
  unfold admin_bank_selection_callback
  rw [ht]
  have hneg : lookupActiveBalance db "MMK" bank - t.mmk_amount < 0 := by
    linarith
  simp only [if_pos hneg]
  have : |lookupActiveBalance db "MMK" bank - t.mmk_amount| =
      t.mmk_amount - lookupActiveBalance db "MMK" bank := by
    rw [abs_of_neg hneg, neg_sub]
  rw [this]

unseal Rat.add Rat.sub Rat.mul Rat.inv in
/-- Witness for C3, at the spec's scenario: balance 50000, required
payout 121500 → rejected with shortage 71500, store unchanged. -/
theorem C3_insufficient_funds_aborts_witness :
    admin_bank_selection_callback dbLow "KBZ" 1 9 =
      (dbLow, ConfirmResult.insufficient 50000 121500 71500) := by
  have h := C3_insufficient_funds_aborts dbLow "KBZ" 1 9 pendingTx
    (by decide) (by decide)
  rw [h]
  decide

/-- `update_transaction_with_admin_bank` leaves the accounts relation
untouched. -/
theorem update_transaction_with_admin_bank_accounts (db : DB) (txid : Nat)
    (st : String) (mb tb : Option String) (now : Nat) :
    (update_transaction_with_admin_bank db txid st mb tb now).accounts =
      db.accounts := rfl

/-- `update_balance` leaves the transactions relation untouched. -/
theorem update_balance_transactions (db : DB) (c bk : String) (δ : ℚ)
    (now : Nat) :
    (update_balance db c bk δ now).transactions = db.transactions := rfl

/-- Reading the active (c, bk) balance after `update_balance (c, bk, δ)`:
the first active matching row has gained `δ`. -/
theorem lookupActiveBalance_update_some (db : DB) (c bk : String) (δ : ℚ)
    (now : Nat) (a : AdminBankAccount)
    (ha : (get_balances db).find? (accountMatches c bk) = some a) :
    lookupActiveBalance (update_balance db c bk δ now) c bk =
      a.balance + δ := by
  unfold lookupActiveBalance get_balances update_balance
  simp only
  rw [filter_map_pred (adjustRow c bk δ now) (fun a => a.is_active)
    (adjustRow_active c bk δ now)]
  rw [find?_map_pred (adjustRow c bk δ now) (accountMatches c bk)
    (adjustRow_matches c bk δ now)]
  unfold get_balances at ha
  rw [ha]
  have hm : accountMatches c bk a = true := List.find?_some ha
  simp [adjustRow_of_matches c bk δ now a hm]

/-- When no active (c, bk) row exists, the lookup still reads 0 after
`update_balance`. -/
theorem lookupActiveBalance_update_none (db : DB) (c bk : String) (δ : ℚ)
    (now : Nat)
    (ha : (get_balances db).find? (accountMatches c bk) = none) :
    lookupActiveBalance (update_balance db c bk δ now) c bk = 0 := by
  unfold lookupActiveBalance get_balances update_balance
  simp only
  rw [filter_map_pred (adjustRow c bk δ now) (fun a => a.is_active)
    (adjustRow_active c bk δ now)]
  rw [find?_map_pred (adjustRow c bk δ now) (accountMatches c bk)
    (adjustRow_matches c bk δ now)]
  unfold get_balances at ha
  rw [ha]
  rfl

/-- Evaluation of the confirmation callback when the projected balance is
non-negative: it debits and overwrites unconditionally. -/
theorem callback_eq_of_sufficient (db : DB) (bank : String) (txid now : Nat)
    (t : Transaction) (ht : get_transaction db txid = some t)
    (h : ¬ (lookupActiveBalance db "MMK" bank - t.mmk_amount < 0)) :
    admin_bank_selection_callback db bank txid now =
      (update_transaction_with_admin_bank
        (update_balance db "MMK" bank (-t.mmk_amount) now)
        txid "confirmed" (some bank) t.admin_thb_bank now,
       ConfirmResult.confirmed) := by
  unfold admin_bank_selection_callback
  rw [ht]
  simp only [if_neg h]

/-- C6: when the selected payout account's balance covers the payout
amount, the confirmation succeeds: the account is debited by exactly the
payout amount and the transaction becomes 'confirmed' with both bank
tags (the MMK bank just chosen and the THB bank recorded at submission)
and a confirmation timestamp. -/
theorem C6_confirmation_success (db : DB) (bank : String) (txid now : Nat)
    (t : Transaction) (a : AdminBankAccount)
    (ht : get_transaction db txid = some t)
    (ha : (get_balances db).find? (accountMatches "MMK" bank) = some a)
    (hge : t.mmk_amount ≤ a.balance) :
    (admin_bank_selection_callback db bank txid now).2 =
      ConfirmResult.confirmed ∧
    lookupActiveBalance (admin_bank_selection_callback db bank txid now).1
      "MMK" bank = a.balance - t.mmk_amount ∧
    ∃ t' ∈ (admin_bank_selection_callback db bank txid now).1.transactions,
      t'.id = txid ∧ t'.status = "confirmed" ∧ t'.admin_bank = some bank ∧
      t'.admin_thb_bank = t.admin_thb_bank ∧ t'.confirmed_at = some now := by
  have hbefore : lookupActiveBalance db "MMK" bank = a.balance := by
    unfold lookupActiveBalance
    rw [ha]
  have hnneg : ¬ (lookupActiveBalance db "MMK" bank - t.mmk_amount < 0) := by
    rw [hbefore]
    linarith
  rw [callback_eq_of_sufficient db bank txid now t ht hnneg]
  refine ⟨rfl, ?_, ?_⟩
  · show lookupActiveBalance
      { update_balance db "MMK" bank (-t.mmk_amount) now with
        transactions := _ } "MMK" bank = a.balance - t.mmk_amount
    unfold lookupActiveBalance get_balances
    rw [show (update_balance db "MMK" bank (-t.mmk_amount) now).accounts =
      (update_balance db "MMK" bank (-t.mmk_amount) now).accounts from rfl]
    have := lookupActiveBalance_update_some db "MMK" bank (-t.mmk_amount)
      now a ha
    unfold lookupActiveBalance get_balances at this
    rw [this]
    ring
  · have htmem : t ∈ db.transactions := List.mem_of_find?_eq_some ht
    have htid : t.id = txid := by
      have := List.find?_some ht
      simpa using this
    refine ⟨_, List.mem_map_of_mem _ htmem, ?_⟩
    rw [if_pos htid]
    exact ⟨htid, rfl, rfl, rfl, rfl⟩

unseal Rat.add Rat.sub Rat.mul Rat.inv in
/-- Witness for C6, at the spec's scenario: payout balance 200000,
required payout 121500 → confirmation succeeds, balance 78500, status
'confirmed', confirmation timestamp set. -/
theorem C6_confirmation_success_witness :
    (admin_bank_selection_callback dbPending "KBZ" 1 9).2 =
      ConfirmResult.confirmed ∧
    lookupActiveBalance (admin_bank_selection_callback dbPending "KBZ" 1 9).1
      "MMK" "KBZ" = sampleMMKAccount.balance - pendingTx.mmk_amount ∧
    ∃ t' ∈ (admin_bank_selection_callback dbPending "KBZ" 1 9).1.transactions,
      t'.id = 1 ∧ t'.status = "confirmed" ∧ t'.admin_bank = some "KBZ" ∧
      t'.admin_thb_bank = pendingTx.admin_thb_bank ∧
      t'.confirmed_at = some 9 :=
  C6_confirmation_success dbPending "KBZ" 1 9 pendingTx sampleMMKAccount
    rfl rfl (by decide)

/-- C10: every update through `update_transaction_status` overwrites the
matching row's `confirmed_at` with the current time (both the with-bank
and without-bank branches include `confirmed_at = ?` in their SET
lists); in particular a cancellation through `admin_cancel_callback`
leaves the cancelled row with a non-null confirmation timestamp, the
status set to 'cancelled', and every other column of the row unchanged. -/
theorem C10_status_update_overwrites_confirmed_at :
    (∀ (db : DB) (txid : Nat) (st : String) (bank : Option String)
       (now : Nat) (t' : Transaction),
       t' ∈ (update_transaction_status db txid st bank now).transactions →
       t'.id = txid → t'.confirmed_at = some now) ∧
    (∀ (db : DB) (txid now : Nat) (t : Transaction),
       t ∈ db.transactions → t.id = txid →
       ∃ t' ∈ (admin_cancel_callback db txid now).transactions,
         t'.status = "cancelled" ∧ t'.confirmed_at = some now ∧
         t'.id = t.id ∧ t'.user_id = t.user_id ∧ t'.username = t.username ∧
         t'.receipt_path = t.receipt_path ∧
         t'.admin_receipt_path = t.admin_receipt_path ∧
         t'.from_bank = t.from_bank ∧ t'.to_bank = t.to_bank ∧
         t'.thb_amount = t.thb_amount ∧ t'.mmk_amount = t.mmk_amount ∧
         t'.rate = t.rate ∧ t'.user_bank_name = t.user_bank_name ∧
         t'.user_account_number = t.user_account_number ∧
         t'.user_account_name = t.user_account_name ∧
         t'.admin_bank = t.admin_bank ∧
         t'.admin_thb_bank = t.admin_thb_bank ∧
         t'.transaction_ref = t.transaction_ref ∧
         t'.created_at = t.created_at) := by
  constructor
  · intro db txid st bank now t' ht' hid
    unfold update_transaction_status at ht'
    simp only at ht'
    obtain ⟨t, htmem, hft⟩ := List.mem_map.mp ht'
    by_cases h : t.id = txid
    · rw [if_pos h] at hft
      cases bank with
      | none => rw [← hft]
      | some b =>
        dsimp only at hft
        by_cases hb : b = ""
        · rw [if_pos hb] at hft
          rw [← hft]
        · rw [if_neg hb] at hft
          rw [← hft]
    · rw [if_neg h] at hft
      rw [← hft] at hid
      exact absurd hid h
  · intro db txid now t htmem hid
    unfold admin_cancel_callback update_transaction_status
    simp only
    refine ⟨_, List.mem_map_of_mem _ htmem, ?_⟩
    rw [if_pos hid]
    exact ⟨rfl, rfl, rfl, rfl, rfl, rfl, rfl, rfl, rfl, rfl, rfl, rfl, rfl,
      rfl, rfl, rfl, rfl, rfl, rfl⟩

unseal Rat.add Rat.sub Rat.mul Rat.inv in
/-- Witness for C10: cancelling the concrete pending transaction stamps
`confirmed_at` with the current tick and leaves the other columns
unchanged. -/
theorem C10_status_update_overwrites_confirmed_at_witness :
    ∃ t' ∈ (admin_cancel_callback dbPending 1 7).transactions,
      t'.status = "cancelled" ∧ t'.confirmed_at = some 7 ∧
      t'.id = pendingTx.id ∧ t'.user_id = pendingTx.user_id ∧
      t'.username = pendingTx.username ∧
      t'.receipt_path = pendingTx.receipt_path ∧
      t'.admin_receipt_path = pendingTx.admin_receipt_path ∧
      t'.from_bank = pendingTx.from_bank ∧ t'.to_bank = pendingTx.to_bank ∧
      t'.thb_amount = pendingTx.thb_amount ∧
      t'.mmk_amount = pendingTx.mmk_amount ∧ t'.rate = pendingTx.rate ∧
      t'.user_bank_name = pendingTx.user_bank_name ∧
      t'.user_account_number = pendingTx.user_account_number ∧
      t'.user_account_name = pendingTx.user_account_name ∧
      t'.admin_bank = pendingTx.admin_bank ∧
      t'.admin_thb_bank = pendingTx.admin_thb_bank ∧
      t'.transaction_ref = pendingTx.transaction_ref ∧
      t'.created_at = pendingTx.created_at :=
  C10_status_update_overwrites_confirmed_at.2 dbPending 1 7 pendingTx
    (by decide) rfl

unseal Rat.add Rat.sub Rat.mul Rat.inv in
/-- C4 counterexample: a committed relative adjustment CAN leave a
negative stored balance.  The admin `/adjust` command applies the parsed
delta unchecked: adjusting MMK/KBZ (balance 5000) by −10000 commits a
stored balance of −5000. -/
theorem C4_counterexample_negative_balance :
    get_balance (adjust_balance_command_relative dbSmall "MMK" "KBZ"
      (-10000) 3) "MMK" "KBZ" = -5000 ∧
    get_balance (adjust_balance_command_relative dbSmall "MMK" "KBZ"
      (-10000) 3) "MMK" "KBZ" < 0 := by
  decide

/-- C4 (amended): the relative-adjust and absolute-set mutations are
unchecked and can drive a stored balance negative; only the confirmation
protocol guards the debit, so a confirmation that proceeds never leaves
the payout account's read balance negative. -/
theorem C4_amended_confirmation_keeps_nonneg (db : DB) (bank : String)
    (txid now : Nat) (t : Transaction)
    (ht : get_transaction db txid = some t)
    (hs : ¬ (lookupActiveBalance db "MMK" bank - t.mmk_amount < 0)) :
    0 ≤ lookupActiveBalance
      (admin_bank_selection_callback db bank txid now).1 "MMK" bank := by
  rw [callback_eq_of_sufficient db bank txid now t ht hs]
  cases ha : (get_balances db).find? (accountMatches "MMK" bank) with
  | none =>
    have h0 := lookupActiveBalance_update_none db "MMK" bank
      (-t.mmk_amount) now ha
    show 0 ≤ lookupActiveBalance
      { update_balance db "MMK" bank (-t.mmk_amount) now with
        transactions := _ } "MMK" bank
    unfold lookupActiveBalance get_balances
    unfold lookupActiveBalance get_balances at h0
    rw [h0]
  | some a =>
    have h1 := lookupActiveBalance_update_some db "MMK" bank
      (-t.mmk_amount) now a ha
    have hbefore : lookupActiveBalance db "MMK" bank = a.balance := by
      unfold lookupActiveBalance
      rw [ha]
    rw [hbefore] at hs
    show 0 ≤ lookupActiveBalance
      { update_balance db "MMK" bank (-t.mmk_amount) now with
        transactions := _ } "MMK" bank
    unfold lookupActiveBalance get_balances
    unfold lookupActiveBalance get_balances at h1
    rw [h1]
    linarith

unseal Rat.add Rat.sub Rat.mul Rat.inv in
/-- Witness for the amended C4: the scenario confirmation (balance
200000, payout 121500) leaves a non-negative payout balance. -/
theorem C4_amended_confirmation_keeps_nonneg_witness :
    0 ≤ lookupActiveBalance
      (admin_bank_selection_callback dbPending "KBZ" 1 9).1 "MMK" "KBZ" :=
  C4_amended_confirmation_keeps_nonneg dbPending "KBZ" 1 9 pendingTx
    rfl (by decide)

/-- Python `str.strip()` on a character list: drop leading and trailing
whitespace. -/
def stripChars (l : List Char) : List Char :=
  ((l.dropWhile Char.isWhitespace).reverse.dropWhile Char.isWhitespace).reverse

/-- The honorific list of `DatabaseService.normalize_name`. -/
def honorifics : List String :=
  ["miss", "mr", "mrs", "ms", "dr", "prof", "sir", "madam"]

/-- The honorific-stripping loop of `normalize_name`: the first honorific
followed by a space or a dot is removed (with a re-strip) and the loop
breaks. -/
def stripHonorific : List String → List Char → List Char
  | [], l => l
  | p :: ps, l =>
    if (p.toList ++ [' ']).isPrefixOf l then
      stripChars (l.drop (p.toList.length + 1))
    else if (p.toList ++ ['.']).isPrefixOf l then
      stripChars (l.drop (p.toList.length + 1))
    else stripHonorific ps l

/-- `DatabaseService.normalize_name`: falsy input gives "";
otherwise lowercase and strip, drop one leading honorific, keep only
alphanumerics and whitespace, then remove all whitespace
(`''.join(normalized.split())`). -/
def normalize_name (name : String) : String :=
  if name = "" then ""
  else
    let l := stripChars (name.toList.map Char.toLower)
    let l2 := stripHonorific honorifics l
    let l3 := l2.filter (fun c => c.isAlphanum || c.isWhitespace)
    String.mk (l3.filter (fun c => !c.isWhitespace))

/-- The Levenshtein recurrence computed by the DP matrix in
`DatabaseService.calculate_similarity`: `matrix[i][j]` satisfies exactly
this recurrence (base rows `i` and `j`, then deletion / insertion /
substitution minimum), and the returned `matrix[len1][len2]` is
`levenshtein s1 s2`. -/
def levenshtein : List Char → List Char → Nat
  | [], t => t.length
  | a :: s, [] => (a :: s).length
  | a :: s, b :: t =>
    min (levenshtein s (b :: t) + 1)
      (min (levenshtein (a :: s) t + 1)
        (levenshtein s t + (if a = b then 0 else 1)))
termination_by s t => s.length + t.length
decreasing_by all_goals simp [List.length_cons] <;> omega

/-- `DatabaseService.calculate_similarity`: 0.0 when either raw input is
falsy; 1.0 when the two normalized strings coincide; 0.0 when a
normalized string is empty; otherwise `1 − distance / max(len1, len2)`
over the normalized strings. -/
def calculate_similarity (str1 str2 : String) : ℚ :=
  if str1 = "" ∨ str2 = "" then 0
  else
    let s1 := normalize_name str1
    let s2 := normalize_name str2
    if s1 = s2 then 1
    else if s1.length = 0 ∨ s2.length = 0 then 0
    else 1 - (levenshtein s1.toList s2.toList : ℚ) /
      ((max s1.length s2.length : Nat) : ℚ)

/-- The Levenshtein distance never exceeds the longer length. -/
theorem levenshtein_le (s t : List Char) :
    levenshtein s t ≤ max s.length t.length := by
  induction s generalizing t with
  | nil =>
    simp [levenshtein]
  | cons a s ih =>
    cases t with
    | nil =>
      simp [levenshtein]
    | cons b t =>
      have h1 := ih t
      have h2 : levenshtein (a :: s) (b :: t) ≤
          levenshtein s t + (if a = b then 0 else 1) := by
        rw [levenshtein]
        exact le_trans (min_le_right _ _) (min_le_right _ _)
      have h3 : (if a = b then 0 else 1) ≤ 1 := by
        split <;> omega
      simp only [List.length_cons]
      omega

/-- C8: normalization identifies "MISS Min Myat Nwe" with "minmyatnwe";
the similarity score always lies in [0, 1]; it is exactly 1.0 for
non-empty inputs whose normalizations coincide; it is 0.0 when either
input is empty; and in the remaining cases it is exactly
`1 − distance / max(len1, len2)` over the normalized strings. -/
theorem C8_normalize_and_similarity :
    normalize_name "MISS Min Myat Nwe" = normalize_name "minmyatnwe" ∧
    (∀ s1 s2 : String,
      0 ≤ calculate_similarity s1 s2 ∧ calculate_similarity s1 s2 ≤ 1) ∧
    (∀ s1 s2 : String, s1 ≠ "" → s2 ≠ "" →
      normalize_name s1 = normalize_name s2 →
      calculate_similarity s1 s2 = 1) ∧
    (∀ s1 s2 : String, s1 = "" ∨ s2 = "" →
      calculate_similarity s1 s2 = 0) ∧
    (∀ s1 s2 : String, s1 ≠ "" → s2 ≠ "" →
      normalize_name s1 ≠ normalize_name s2 →
      (normalize_name s1).length ≠ 0 → (normalize_name s2).length ≠ 0 →
      calculate_similarity s1 s2 =
        1 - (levenshtein (normalize_name s1).toList
              (normalize_name s2).toList : ℚ) /
          ((max (normalize_name s1).length (normalize_name s2).length :
            Nat) : ℚ)) := by
  refine ⟨by decide, ?_, ?_, ?_, ?_⟩
  · intro s1 s2
    simp only [calculate_similarity]
    split_ifs with h1 h2 h3
    · norm_num
    · norm_num
    · norm_num
    · push_neg at h3
      have hl1 : 0 < (normalize_name s1).length := Nat.pos_of_ne_zero h3.1
      have hmx : (0 : ℚ) <
          ((max (normalize_name s1).length (normalize_name s2).length :
            Nat) : ℚ) := by
        have : 0 < max (normalize_name s1).length
            (normalize_name s2).length := lt_of_lt_of_le hl1 (le_max_left _ _)
        exact_mod_cast this
      have hd : (levenshtein (normalize_name s1).toList
          (normalize_name s2).toList : ℚ) ≤
          ((max (normalize_name s1).length (normalize_name s2).length :
            Nat) : ℚ) := by
        have h := levenshtein_le (normalize_name s1).toList
          (normalize_name s2).toList
        exact_mod_cast h
      have hq1 : (levenshtein (normalize_name s1).toList
          (normalize_name s2).toList : ℚ) /
          ((max (normalize_name s1).length (normalize_name s2).length :
            Nat) : ℚ) ≤ 1 := (div_le_one hmx).mpr hd
      have hq0 : 0 ≤ (levenshtein (normalize_name s1).toList
          (normalize_name s2).toList : ℚ) /
          ((max (normalize_name s1).length (normalize_name s2).length :
            Nat) : ℚ) := div_nonneg (Nat.cast_nonneg _) (le_of_lt hmx)
      constructor <;> linarith
  · intro s1 s2 h1 h2 heq
    simp only [calculate_similarity]
    rw [if_neg (by push_neg; exact ⟨h1, h2⟩), if_pos heq]
  · intro s1 s2 h
    simp only [calculate_similarity]
    rw [if_pos h]
  · intro s1 s2 h1 h2 hne hl1 hl2
    simp only [calculate_similarity]
    rw [if_neg (by push_neg; exact ⟨h1, h2⟩), if_neg hne,
      if_neg (by push_neg; exact ⟨hl1, hl2⟩)]

/-- Witness for C8: the spec's concrete pair scores exactly 1.0, and an
empty input scores 0.0. -/
theorem C8_normalize_and_similarity_witness :
    calculate_similarity "MISS Min Myat Nwe" "minmyatnwe" = 1 ∧
    calculate_similarity "" "minmyatnwe" = 0 :=
  ⟨C8_normalize_and_similarity.2.2.1 "MISS Min Myat Nwe" "minmyatnwe"
      (by decide) (by decide) (by decide),
   C8_normalize_and_similarity.2.2.2.1 "" "minmyatnwe" (Or.inl rfl)⟩

/-- Python's substring test `needle in hay` on character lists. -/
def isSubChars (n : List Char) : List Char → Bool
  | [] => n.isEmpty
  | c :: t => n.isPrefixOf (c :: t) || isSubChars n t

/-- The `bank_aliases` dictionary of
`DatabaseService.validate_receiver_account`, as the total lookup
`bank_aliases.get(s, s)`. -/
def bank_alias : String → String
  | "scb" => "siamcommercialbank"
  | "siamcommercial" => "siamcommercialbank"
  | "siamcommercialbank" => "siamcommercialbank"
  | "siam" => "siamcommercialbank"
  | "ktb" => "krungthaibank"
  | "krungthai" => "krungthaibank"
  | "krungthaibank" => "krungthaibank"
  | "promptpay" => "promptpay"
  | "kbank" => "kasikorn"
  | "kasikorn" => "kasikorn"
  | "kasikornbank" => "kasikorn"
  | "bbl" => "bangkokbank"
  | "bangkok" => "bangkokbank"
  | "bangkokbank" => "bangkokbank"
  | s => s

/-- A bank label's canonical identifier: alias lookup after
normalization. -/
def canonical_bank (label : String) : String :=
  bank_alias (normalize_name label)

/-- The `bank_matches` disjunction of `validate_receiver_account`:
equality or substring containment after alias resolution, substring
containment of the raw normalized labels, and the two cross-checks.
(Python `x in y` is substring containment.) -/
def bank_matches (input_bank acc_bank : String) : Bool :=
  let ni := normalize_name input_bank
  let na := normalize_name acc_bank
  let ci := bank_alias ni
  let ca := bank_alias na
  decide (ci = ca) || isSubChars ci.toList ca.toList ||
    isSubChars ca.toList ci.toList || isSubChars ni.toList na.toList ||
    isSubChars na.toList ni.toList || decide (ci = na) || decide (ca = ni)

/-- C9: "SCB" and "Siam Commercial Bank" resolve to the same canonical
bank identifier through the alias table, and any two labels whose
canonical forms are equal or substring-related are accepted by the
bank-matching test. -/
theorem C9_bank_alias_resolution :
    canonical_bank "SCB" = canonical_bank "Siam Commercial Bank" ∧
    canonical_bank "SCB" = "siamcommercialbank" ∧
    (∀ i a : String,
      (canonical_bank i = canonical_bank a ∨
       isSubChars (canonical_bank i).toList (canonical_bank a).toList = true ∨
       isSubChars (canonical_bank a).toList (canonical_bank i).toList = true) →
      bank_matches i a = true) := by
  refine ⟨by decide, by decide, ?_⟩
  intro i a h
  simp only [canonical_bank] at h
  simp only [bank_matches]
  rcases h with h | h | h
  · simp [h]
  · simp only [String.toList] at h
    simp [h]
  · simp only [String.toList] at h
    simp [h]

/-- Witness for C9: "SCB" vs "Siam Commercial Bank" is accepted by the
matching test. -/
theorem C9_bank_alias_resolution_witness :
    bank_matches "SCB" "Siam Commercial Bank" = true :=
  C9_bank_alias_resolution.2.2 "SCB" "Siam Commercial Bank"
    (Or.inl (by decide))

/-- Python `text.split(sep)` for a single-character separator. -/
def splitOnChar (sep : Char) : List Char → List (List Char)
  | [] => [[]]
  | c :: cs =>
    let r := splitOnChar sep cs
    if c = sep then [] :: r
    else (c :: r.headD []) :: r.tail

/-- `Config.MMK_BANKS`. -/
def MMK_BANKS : List String := ["KBZ", "AYA", "CB Bank", "KPay", "Wave Money"]

/-- The accumulator loop of `DatabaseService.validate_receiver_account`:
per candidate, name similarity and exact-normalized-name test; an exact
match returns the candidate immediately; otherwise fuzzy matches
(similarity ≥ 0.80) compete on `similarity (+ 0.1 when the bank also
matches, when a bank label was given)` and the best scorer is returned
at the end.  The source reads (id, bank_name, account_number,
account_name) of each row; we carry the whole row. -/
def validate_go (iname : String) (bank : Option String) :
    List AdminBankAccount → Option AdminBankAccount → ℚ →
      Option AdminBankAccount
  | [], best, _ => best
  | acc :: rest, best, bestSim =>
    let sim := calculate_similarity iname acc.account_name
    let exact : Bool :=
      decide (normalize_name iname = normalize_name acc.account_name)
    let nameMatches : Bool := exact || decide (sim ≥ 80 / 100)
    if nameMatches then
      let score := match bank with
        | some bn => if bank_matches bn acc.bank_name then sim + 1 / 10
                     else sim
        | none => sim
      let best' := if bestSim < score then some acc else best
      let bestSim' := if bestSim < score then score else bestSim
      if exact then some acc
      else validate_go iname bank rest best' bestSim'
    else validate_go iname bank rest best bestSim

/-- `DatabaseService.validate_receiver_account(account_name, bank_name,
currency)`: scan the active accounts of the currency.  Python truthiness
makes an empty-string bank label behave like `None`. -/
def validate_receiver_account (db : DB) (account_name : String)
    (bank_name : Option String) (currency : String) :
    Option AdminBankAccount :=
  let bank := match bank_name with
    | some b => if b = "" then none else some b
    | none => none
  validate_go account_name bank
    (db.accounts.filter (fun a => a.is_active &&
      decide (a.currency = currency)))
    none 0

/-- A result of `validate_go` is the tracked best or a scanned row. -/
theorem validate_go_mem (iname : String) (bank : Option String) :
    ∀ (l : List AdminBankAccount) (best : Option AdminBankAccount)
      (bestSim : ℚ) (a : AdminBankAccount),
      validate_go iname bank l best bestSim = some a →
      best = some a ∨ a ∈ l := by
  intro l
  induction l with
  | nil =>
    intro best bestSim a h
    exact Or.inl h
  | cons acc rest ih =>
    intro best bestSim a h
    rw [validate_go.eq_def] at h
    dsimp only at h
    split at h
    · split at h
      · cases h
        exact Or.inr (List.mem_cons_self _ _)
      · rcases ih _ _ _ h with h' | h'
        · split at h'
          · cases h'
            exact Or.inr (List.mem_cons_self _ _)
          · exact Or.inl h'
        · exact Or.inr (List.mem_cons_of_mem _ h')
    · rcases ih _ _ _ h with h' | h'
      · exact Or.inl h'
      · exact Or.inr (List.mem_cons_of_mem _ h')

/-- A matched receiver account is an active stored row of the requested
currency. -/
theorem validate_receiver_account_mem (db : DB) (n : String)
    (bank : Option String) (cur : String) (a : AdminBankAccount)
    (h : validate_receiver_account db n bank cur = some a) :
    a ∈ db.accounts ∧ a.is_active = true ∧ a.currency = cur := by
  unfold validate_receiver_account at h
  rcases validate_go_mem n _ _ _ _ _ h with h' | h'
  · exact Option.noConfusion h'
  · have hmem := List.mem_filter.mp h'
    have hp := hmem.2
    simp only [Bool.and_eq_true, decide_eq_true_eq] at hp
    exact ⟨hmem.1, hp.1, hp.2⟩

/-- The structured record returned by the extraction collaborator
(`ocr_service.extract_receipt_info`); any field may be absent. -/
structure ReceiptInfo where
  amount : Option ℚ
  sender_bank : Option String
  receiver_bank : Option String
  receiver_name : Option String
  status : Option String
deriving Repr, DecidableEq

/-- The receipt-status check of `UserHandlers.handle_receipt`:
`receipt_info.get('status') and 'success' not in status.lower()`
(truthy status that does not contain "success"). -/
def receiptStatusBad (rinfo : ReceiptInfo) : Bool :=
  match rinfo.status with
  | some s => !(decide (s = "")) &&
      !(isSubChars "success".toList (s.toList.map Char.toLower))
  | none => false

/-- Outcome of the store-relevant part of `handle_receipt`. -/
inductive ReceiptValidation where
  | rejectedBadStatus
  | rejectedNoMatch
  | proceed (admin_thb_bank : Option String)
deriving Repr, DecidableEq

/-- The store-relevant part of `UserHandlers.handle_receipt`: reject on a
non-successful status; when a receiver name was extracted (Python
truthiness: non-empty), the matcher must accept it against the active
THB accounts, else the submission is rejected; on a match
`user_data['admin_thb_bank']` is set to the matched row's bank name.
Photo download, OCR and messaging are outside the store model; this step
never mutates the store. -/
def handle_receipt_validation (db : DB) (rinfo : ReceiptInfo) :
    ReceiptValidation :=
  if receiptStatusBad rinfo then ReceiptValidation.rejectedBadStatus
  else
    match rinfo.receiver_name with
    | some rn =>
      if rn = "" then ReceiptValidation.proceed none
      else
        match validate_receiver_account db rn rinfo.receiver_bank "THB" with
        | none => ReceiptValidation.rejectedNoMatch
        | some acc => ReceiptValidation.proceed (some acc.bank_name)
    | none => ReceiptValidation.proceed none

/-- Outcome of `handle_bank_info` as observed by the requester. -/
inductive BankInfoResult where
  | invalidFormat
  | unsupportedBank
  | submitted (txid : Nat)
deriving Repr, DecidableEq

/-- `UserHandlers.handle_bank_info`: parse `Bank | Account | Name`
(Python `text.split('|')`, then `strip()` each part), require a
supported MMK bank (case-insensitive substring test against
`Config.MMK_BANKS`), recompute `mmk = thb × current rate`, create the
pending transaction, then credit the THB receiving account
(`update_balance('THB', admin_thb_bank, thb_amount)`). -/
def handle_bank_info (db : DB) (user_id : Nat) (username : Option String)
    (thb_amount : ℚ) (receipt_path : Option String)
    (admin_thb_bank : String) (sender_bank : Option String)
    (text : String) (now : Nat) : DB × BankInfoResult :=
  match splitOnChar '|' text.toList with
  | [b, n, a] =>
    let bank_name := String.mk (stripChars b)
    let account_number := String.mk (stripChars n)
    let account_name := String.mk (stripChars a)
    if MMK_BANKS.any (fun bk => isSubChars (bk.toList.map Char.toLower)
        (bank_name.toList.map Char.toLower)) then
      let mmk_amount := thb_amount * db.rate
      let res := create_transaction db user_id username thb_amount
        mmk_amount db.rate bank_name account_number account_name
        (some (sender_bank.getD "Unknown")) receipt_path
        (some admin_thb_bank) now
      (update_balance res.1 "THB" admin_thb_bank thb_amount now,
       BankInfoResult.submitted res.2)
    else (db, BankInfoResult.unsupportedBank)
  | _ => (db, BankInfoResult.invalidFormat)

/-- Outcome of the whole submission protocol. -/
inductive SubmissionResult where
  | rejectedBadStatus
  | rejectedNoMatch
  | invalidFormat
  | unsupportedBank
  | submitted (txid : Nat)
deriving Repr, DecidableEq

/-- The submission protocol: the store-relevant part of `handle_receipt`
followed by `handle_bank_info` (the amount prompt in between does not
touch the store).  `admin_thb_bank` resolves as in the source:
`user_data.get('admin_thb_bank', receipt_info.get('receiver_bank',
'KBank'))`. -/
def submission (db : DB) (rinfo : ReceiptInfo) (user_id : Nat)
    (username : Option String) (thb_amount : ℚ)
    (receipt_path : Option String) (text : String) (now : Nat) :
    DB × SubmissionResult :=
  match handle_receipt_validation db rinfo with
  | ReceiptValidation.rejectedBadStatus =>
    (db, SubmissionResult.rejectedBadStatus)
  | ReceiptValidation.rejectedNoMatch =>
    (db, SubmissionResult.rejectedNoMatch)
  | ReceiptValidation.proceed matched =>
    let admin_thb_bank := matched.getD (rinfo.receiver_bank.getD "KBank")
    match handle_bank_info db user_id username thb_amount receipt_path
        admin_thb_bank rinfo.sender_bank text now with
    | (db', BankInfoResult.invalidFormat) =>
      (db', SubmissionResult.invalidFormat)
    | (db', BankInfoResult.unsupportedBank) =>
      (db', SubmissionResult.unsupportedBank)
    | (db', BankInfoResult.submitted txid) =>
      (db', SubmissionResult.submitted txid)

/-- Evaluation of `handle_receipt_validation` when the status check
passes and the extracted receiver name finds no candidate. -/
theorem handle_receipt_validation_none (db : DB) (rinfo : ReceiptInfo)
    (rn : String) (hst : receiptStatusBad rinfo = false)
    (hrn : rinfo.receiver_name = some rn) (hne : rn ≠ "")
    (hval : validate_receiver_account db rn rinfo.receiver_bank "THB" =
      none) :
    handle_receipt_validation db rinfo =
      ReceiptValidation.rejectedNoMatch := by
  unfold handle_receipt_validation
  rw [hst, if_neg Bool.false_ne_true, hrn]
  dsimp only
  rw [if_neg hne, hval]

/-- Evaluation of `handle_receipt_validation` when the status check
passes and the extracted receiver name matches `acc`. -/
theorem handle_receipt_validation_some (db : DB) (rinfo : ReceiptInfo)
    (rn : String) (acc : AdminBankAccount)
    (hst : receiptStatusBad rinfo = false)
    (hrn : rinfo.receiver_name = some rn) (hne : rn ≠ "")
    (hval : validate_receiver_account db rn rinfo.receiver_bank "THB" =
      some acc) :
    handle_receipt_validation db rinfo =
      ReceiptValidation.proceed (some acc.bank_name) := by
  unfold handle_receipt_validation
  rw [hst, if_neg Bool.false_ne_true, hrn]
  dsimp only
  rw [if_neg hne, hval]

/-- Evaluation of `handle_bank_info` on a well-formed submission. -/
theorem handle_bank_info_eq (db : DB) (user_id : Nat)
    (username : Option String) (thb : ℚ) (rp : Option String)
    (atb : String) (sb : Option String) (text : String) (now : Nat)
    (bpart npart apart : List Char)
    (hsplit : splitOnChar '|' text.toList = [bpart, npart, apart])
    (hbank : MMK_BANKS.any (fun bk => isSubChars
      (bk.toList.map Char.toLower)
      ((String.mk (stripChars bpart)).toList.map Char.toLower)) = true) :
    handle_bank_info db user_id username thb rp atb sb text now =
      (update_balance
        (create_transaction db user_id username thb (thb * db.rate)
          db.rate (String.mk (stripChars bpart))
          (String.mk (stripChars npart)) (String.mk (stripChars apart))
          (some (sb.getD "Unknown")) rp (some atb) now).1
        "THB" atb thb now,
       BankInfoResult.submitted db.nextId) := by
  unfold handle_bank_info
  rw [hsplit]
  dsimp only
  rw [if_pos hbank]
  rfl

/-- The row just inserted by `create_transaction` is stored pending with
the snapshot fields as passed. -/
theorem create_transaction_spec (db : DB) (user_id : Nat)
    (username : Option String) (thb mmk rate : ℚ)
    (ubn uan uanm : String) (fb rp atb : Option String) (now : Nat) :
    ∃ t ∈ (create_transaction db user_id username thb mmk rate
        ubn uan uanm fb rp atb now).1.transactions,
      t.id = db.nextId ∧ t.status = "pending" ∧ t.thb_amount = thb ∧
      t.rate = rate ∧ t.mmk_amount = mmk ∧ t.confirmed_at = none := by
  refine ⟨_, List.mem_append.mpr (Or.inr (List.mem_singleton.mpr rfl)),
    rfl, rfl, rfl, rfl, rfl, rfl⟩

/-- C5: for a submission whose receipt passed the status check and
carries an extracted receiver name: if the matcher accepts no candidate,
the submission is rejected with the store unchanged (no transaction, no
ledger credit); if the matcher accepts a candidate and the bank-info step
is well-formed, a transaction is created with status 'pending', source
amount `thb`, target amount `thb × rate` with the rate snapshot stored,
and the matched receiving account's stored balance is credited by
exactly `thb`. -/
theorem C5_submission_protocol (db : DB) (rinfo : ReceiptInfo)
    (user_id : Nat) (username : Option String) (thb : ℚ)
    (rp : Option String) (text : String) (now : Nat) (rn : String)
    (hst : receiptStatusBad rinfo = false)
    (hrn : rinfo.receiver_name = some rn) (hne : rn ≠ "") :
    (validate_receiver_account db rn rinfo.receiver_bank "THB" = none →
      submission db rinfo user_id username thb rp text now =
        (db, SubmissionResult.rejectedNoMatch)) ∧
    (∀ acc, validate_receiver_account db rn rinfo.receiver_bank "THB" =
        some acc →
      ∀ bpart npart apart,
        splitOnChar '|' text.toList = [bpart, npart, apart] →
        MMK_BANKS.any (fun bk => isSubChars (bk.toList.map Char.toLower)
          ((String.mk (stripChars bpart)).toList.map Char.toLower)) =
          true →
        ∃ db', submission db rinfo user_id username thb rp text now =
            (db', SubmissionResult.submitted db.nextId) ∧
          (∃ t ∈ db'.transactions, t.id = db.nextId ∧
            t.status = "pending" ∧ t.thb_amount = thb ∧ t.rate = db.rate ∧
            t.mmk_amount = thb * db.rate ∧ t.confirmed_at = none) ∧
          { acc with balance := acc.balance + thb, updated_at := now } ∈
            db'.accounts) := by
  constructor
  · intro hval
    unfold submission
    rw [handle_receipt_validation_none db rinfo rn hst hrn hne hval]
  · intro acc hval bpart npart apart hsplit hbank
    obtain ⟨hmem, hact, hcur⟩ :=
      validate_receiver_account_mem db rn rinfo.receiver_bank "THB" acc hval
    unfold submission
    rw [handle_receipt_validation_some db rinfo rn acc hst hrn hne hval]
    dsimp only [Option.getD]
    rw [handle_bank_info_eq db user_id username thb rp acc.bank_name
      rinfo.sender_bank text now bpart npart apart hsplit hbank]
    refine ⟨_, rfl, ?_, ?_⟩
    · obtain ⟨t, htm, h1, h2, h3, h4, h5, h6⟩ :=
        create_transaction_spec db user_id username thb (thb * db.rate)
          db.rate (String.mk (stripChars bpart))
          (String.mk (stripChars npart)) (String.mk (stripChars apart))
          (some (rinfo.sender_bank.getD "Unknown")) rp
          (some acc.bank_name) now
      exact ⟨t, htm, h1, h2, h3, h4, h5, h6⟩
    · show _ ∈ db.accounts.map (adjustRow "THB" acc.bank_name thb now)
      have hm : accountMatches "THB" acc.bank_name acc = true := by
        unfold accountMatches
        simp [hcur]
      have := adjustRow_of_matches "THB" acc.bank_name thb now acc hm
      rw [← this]
      exact List.mem_map_of_mem _ hmem

/-- Concrete extraction record used by the C5 witness. -/
def sampleReceipt : ReceiptInfo :=
  { amount := some 1000, sender_bank := some "KBank",
    receiver_bank := some "SCB",
    receiver_name := some "MISS Min Myat Nwe",
    status := some "Successful" }

/-- Witness for C5: submitting 1000 THB at rate 121.5 against the sample
store matches the SiamCommercialBank account (held by "Min Myat Nwe"),
creates pending transaction #1 with target 1000 × 121.5, and credits the
matched account by exactly 1000. -/
theorem C5_submission_protocol_witness :
    ∃ db', submission sampleDB sampleReceipt 42 (some "alice") 1000
        (some "receipts/r.jpg") "AYA|00987654321|AUNG AUNG" 2 =
        (db', SubmissionResult.submitted sampleDB.nextId) ∧
      (∃ t ∈ db'.transactions, t.id = sampleDB.nextId ∧
        t.status = "pending" ∧ t.thb_amount = 1000 ∧
        t.rate = sampleDB.rate ∧ t.mmk_amount = 1000 * sampleDB.rate ∧
        t.confirmed_at = none) ∧
      { sampleTHBAccount with
        balance := sampleTHBAccount.balance + 1000
        updated_at := 2 } ∈ db'.accounts :=
  (C5_submission_protocol sampleDB sampleReceipt 42 (some "alice") 1000
      (some "receipts/r.jpg") "AYA|00987654321|AUNG AUNG" 2
      "MISS Min Myat Nwe" (by decide) rfl (by decide)).2
    sampleTHBAccount (by decide)
    "AYA".toList "00987654321".toList "AUNG AUNG".toList
    (by decide) (by decide)

end ExchangeBot
